import Mathlib

set_option maxRecDepth 100000

/-!
Shallow embedding of the interview-bot core: the timed interview session
engine (`ai_engine/interview_question_flow.py`, `routes/interview_routes.py`,
`routes/interview.py`) and the proctoring integrity engine
(`utils/proctoring_cv.py`, `routes/interview_routes.py`).

Conventions of the embedding:
* Python `int` values are modelled as `Int` (or `Nat` where the source value
  is a length/index), Python `float` values as exact rationals `ℚ`, except
  the cosine similarity of `compare_signatures`, whose value involves square
  roots and is modelled in `ℝ`.
* Python `None`-able fields are `Option`; Python truthiness of optional
  ints/strings/lists (where both `None` and `0`/`""`/`[]` are falsy) is
  modelled by the explicit helpers `orElseTruthy`, `strOr`, `truthyList`.
* Fallible endpoints return `Except (Int × String)` (HTTP status, detail);
  raising `HTTPException` aborts the transaction, so the error branch
  returns no updated state.
* Wall-clock inputs (`time.time()`, `datetime.utcnow()`) are passed as
  explicit arguments; database-generated primary keys are passed as
  explicit arguments; external collaborators (the free-form question
  generator, the answer summarizer/scorer) are passed as function arguments.
-/

namespace InterviewBot

/-- Python truthiness fallback on optional ints: `x or d` where both `None`
and `0` are falsy. -/
def orElseTruthy (x : Option Int) (d : Int) : Int :=
  match x with
  | none => d
  | some v => if v = 0 then d else v

/-- Python truthiness fallback on optional strings: `x or d` where both
`None` and `""` are falsy. -/
def strOr (x : Option String) (d : String) : String :=
  match x with
  | none => d
  | some s => if s = "" then d else s

/-- Python truthiness of an optional list: `None` and `[]` are falsy. -/
def truthyList (x : Option (List ℝ)) : Bool :=
  match x with
  | none => false
  | some l => !l.isEmpty

/-- Whether an endpoint call succeeded (was not rejected with an HTTP
error). -/
def isOkE {e a : Type} : Except e a → Bool
  | .ok _ => true
  | .error _ => false

/-- Drop leading whitespace characters. -/
def dropLeadingWs : List Char → List Char
  | [] => []
  | c :: cs => if c.isWhitespace then dropLeadingWs cs else c :: cs

/-- Python `str.strip()`: remove whitespace from both ends. -/
def pyStrip (s : String) : String :=
  String.mk ((dropLeadingWs (dropLeadingWs s.data).reverse).reverse)

/-- Python `str.lower()` (the source strings are ASCII). -/
def pyLower (s : String) : String :=
  String.mk (s.data.map Char.toLower)

/-- Character-by-character leading match: does the second list start with
the first? -/
def leadsWith : List Char → List Char → Bool
  | [], _ => true
  | _ :: _, [] => false
  | a :: as, b :: bs => a = b && leadsWith as bs

/-- Python `needle in hay` on strings (substring containment). -/
def hasSub (needle : List Char) : List Char → Bool
  | [] => needle.isEmpty
  | c :: t => leadsWith needle (c :: t) || hasSub needle t

/-- Python `str.startswith(pre)`. -/
def pyStartsWith (s pre : String) : Bool :=
  leadsWith pre.data s.data

/-- Maximal run of non-whitespace characters at the front of the list,
with the rest of the list. -/
def takeNonWs : List Char → List Char × List Char
  | [] => ([], [])
  | c :: cs =>
      if c.isWhitespace then ([], c :: cs)
      else
        let p := takeNonWs cs
        (c :: p.1, p.2)

/-- Word scan of Python `str.split()`; the fuel is a termination device
(every call consumes at least one character). -/
def wordsFuel : Nat → List Char → List String
  | 0, _ => []
  | _ + 1, [] => []
  | fuel + 1, c :: cs =>
      if c.isWhitespace then wordsFuel fuel cs
      else
        let p := takeNonWs (c :: cs)
        String.mk p.1 :: wordsFuel fuel p.2

/-- Python `str.split()` with no separator: split on whitespace runs,
dropping empty pieces. -/
def pyWords (s : String) : List String :=
  wordsFuel s.data.length s.data

/-! ### `ai_engine/interview_question_flow.py` -/

/-- `STOPWORDS` from `interview_question_flow.py`. -/
def STOPWORDS : List String :=
  ["about", "after", "also", "because", "could", "from", "have", "just",
   "like", "make", "more", "should", "that", "them", "then", "they",
   "this", "what", "when", "with", "your"]

/-- `FALLBACK_STAGE_QUESTIONS` from `interview_question_flow.py`, as the
lookup `FALLBACK_STAGE_QUESTIONS.get(stage, FALLBACK_STAGE_QUESTIONS["experience"])`. -/
def fallbackStageQuestions (stage : String) : List String :=
  match stage with
  | "basics" =>
      ["Introduce your most relevant project and your personal ownership in it.",
       "Which core technologies do you use confidently in production and why?"]
  | "system" =>
      ["How would you design this feature to support scale and failures?",
       "What monitoring, alerts, and rollback strategy would you define here?"]
  | "behavioral" =>
      ["Describe a difficult team conflict and how you resolved it professionally.",
       "Tell me about a time you failed, what you learned, and what changed."]
  | _ =>
      ["Describe a production bug you solved end-to-end, including root cause and fix.",
       "Tell me about a technical trade-off where you chose speed vs quality."]

/-- `stage_for_question_index` from `interview_question_flow.py`. -/
def stage_for_question_index (index : Nat) : String :=
  if index < 2 then "basics"
  else if index < 5 then "experience"
  else if index < 7 then "system"
  else "behavioral"

/-- The stage-bonus dictionary lookup
`{"basics": 0, "experience": 10, "system": 20, "behavioral": 5}.get(stage, 0)`
inside `compute_dynamic_seconds`. -/
def stage_bonus (stage : String) : Int :=
  match stage with
  | "basics" => 0
  | "experience" => 10
  | "system" => 20
  | "behavioral" => 5
  | _ => 0

/-- `compute_dynamic_seconds` from `interview_question_flow.py`. -/
def compute_dynamic_seconds (base_seconds : Int) (question_index : Nat)
    (last_answer : String) : Int :=
  let words := (pyWords last_answer).length
  let stage := stage_for_question_index question_index
  let answer_adjust : Int := if words < 15 then -10 else if words > 80 then 15 else 0
  let dynamic_seconds := base_seconds + stage_bonus stage + answer_adjust
  max 30 (min 180 dynamic_seconds)

/-- `_difficulty_for_stage` from `interview_question_flow.py`. -/
def difficulty_for_stage (stage : String) : String :=
  if stage = "basics" then "easy"
  else if stage = "experience" then "medium"
  else "hard"

/-- A character allowed inside a token of `_focus_phrase`'s regular
expression `[A-Za-z][A-Za-z0-9+#.-]{2,}` after the leading letter. -/
def tokenChar (c : Char) : Bool :=
  c.isAlpha || c.isDigit || c = '+' || c = '#' || c = '.' || c = '-'

/-- Maximal run of token characters at the front of the list, with the
rest of the list. -/
def takeRun : List Char → List Char × List Char
  | [] => ([], [])
  | c :: cs =>
      if tokenChar c then
        let p := takeRun cs
        (c :: p.1, p.2)
      else ([], c :: cs)

/-- `re.findall(r"[A-Za-z][A-Za-z0-9+#.-]{2,}", s)`: scan left to right;
at a letter, greedily take the maximal run of token characters; the match
succeeds when at least 2 further characters follow; matches do not
overlap. The fuel argument is a termination device; every recursive call
consumes at least one character, so fuel equal to the input length is
never exhausted. -/
def findTokensFuel : Nat → List Char → List (List Char)
  | 0, _ => []
  | _ + 1, [] => []
  | fuel + 1, c :: rest =>
      if c.isAlpha then
        let p := takeRun rest
        if 2 ≤ p.1.length then
          (c :: p.1) :: findTokensFuel fuel p.2
        else findTokensFuel fuel rest
      else findTokensFuel fuel rest

/-- The token list of `re.findall(r"[A-Za-z][A-Za-z0-9+#.-]{2,}", s)`. -/
def findTokens (l : List Char) : List (List Char) :=
  findTokensFuel l.length l

/-- `_focus_phrase` from `interview_question_flow.py`. -/
def focus_phrase (last_answer : String) : String :=
  let tokens := (findTokens (pyLower last_answer).data).map (fun cs => String.mk cs)
  let filtered := tokens.filter (fun t => !STOPWORDS.contains t)
  if filtered = [] then "" else String.intercalate " " (filtered.take 4)

/-- One normalized pre-supplied question, i.e. one element of the output of
`normalize_result_questions` (which guarantees the `text`, `difficulty` and
`topic` keys are present). -/
structure QItem where
  text : String
  difficulty : String
  topic : String
deriving DecidableEq, Repr

/-- The asked-set normalization
`{text.strip().lower() for text in asked_questions if text.strip()}` of
`next_question_payload` (a list standing for the Python set; only
membership is used). -/
def asked_norm_set (asked_questions : List String) : List String :=
  asked_questions.filterMap
    (fun t => if pyStrip t = "" then none else some (pyLower (pyStrip t)))

/-- The fallback template
`stage_questions[question_index % len(stage_questions)]` chosen by
`next_question_payload` when the pre-supplied pool is exhausted. -/
def fallback_template (question_index : Nat) : String :=
  let stage := stage_for_question_index question_index
  let stage_questions := fallbackStageQuestions stage
  stage_questions.getD (question_index % stage_questions.length) ""

/-- The pool-exhausted branch of `next_question_payload` (lines 124-136 of
`interview_question_flow.py`). -/
def fallback_payload (question_index : Nat) (last_answer : String)
    (jd_title : Option String) : QItem :=
  let stage := stage_for_question_index question_index
  let focus := let fp := focus_phrase last_answer
               if fp = "" then strOr jd_title "your recent project" else fp
  let base := fallback_template question_index
  let text :=
    if stage = "experience" ∨ stage = "system" then
      base ++ " Please include metrics, decisions, and trade-offs around " ++ focus ++ "."
    else if stage = "behavioral" then
      base ++ " Explain your communication style while handling " ++ focus ++ "."
    else
      base ++ " Connect it to " ++ focus ++ "."
  ⟨text, difficulty_for_stage stage, stage⟩

/-- `next_question_payload` from `interview_question_flow.py`. -/
def next_question_payload (source_questions : List QItem)
    (asked_questions : List String) (question_index : Nat)
    (last_answer : String) (jd_title : Option String) : QItem :=
  let asked_set := asked_norm_set asked_questions
  match source_questions.find? (fun item => !asked_set.contains (pyLower (pyStrip item.text))) with
  | some item => ⟨pyStrip item.text, item.difficulty, item.topic⟩
  | none => fallback_payload question_index last_answer jd_title

/-! ### `utils/proctoring_cv.py` -/

section Proctoring

open Classical

/-- `float(np.dot(a, b))` on equal-length 1-D vectors. -/
def dot (a b : List ℝ) : ℝ := (List.zipWith (· * ·) a b).sum

/-- The squared euclidean norm `np.linalg.norm(v) ** 2`, i.e. the sum of
squares of the entries. -/
def sumSq (a : List ℝ) : ℝ := (a.map (fun x => x ^ 2)).sum

/-- `compare_signatures` from `proctoring_cv.py`, on the OpenCV-enabled
path (the degraded `np is None` early return is the caller's
`opencv_enabled = false` mode, in which no signature exists to compare).
Float arithmetic is idealized as exact real arithmetic. -/
noncomputable def compare_signatures (signature_a signature_b : List ℝ) : Option ℝ :=
  if signature_a.isEmpty ∨ signature_b.isEmpty then none
  else if signature_a.length ≠ signature_b.length then none
  else
    let denom := Real.sqrt (sumSq signature_a) * Real.sqrt (sumSq signature_b)
    if denom ≤ 1e-8 then none
    else some (dot signature_a signature_b / denom)

/-- `should_store_periodic` from `proctoring_cv.py`. The process-wide
`_LAST_PERIODIC_SAVE` dict is the explicit state `st` (total map with the
`.get(session_id, 0.0)` default built in as value 0 for absent keys), and
`time.time()` is the explicit argument `now_ts`. Returns the decision and
the updated map. -/
def should_store_periodic (st : Int → ℚ) (session_id : Int)
    (interval_seconds : Int) (now_ts : ℚ) : Bool × (Int → ℚ) :=
  let last := st session_id
  if (interval_seconds : ℚ) ≤ now_ts - last then
    (true, fun s => if s = session_id then now_ts else st s)
  else
    (false, st)

/-- The result dict of `analyze_frame`. -/
structure FrameResult where
  ok : Bool
  faces_count : Int
  motion_score : ℚ
  face_signature : Option (List ℝ)
  error : Option String
  opencv_enabled : Bool

/-- `analyze_frame`'s early return when the face-detection capability is
unavailable (`cv2 is None or np is None or _CASCADE is None`), lines 24-32
of `proctoring_cv.py`. -/
def analyze_frame_disabled : FrameResult :=
  { ok := true, faces_count := 1, motion_score := 0, face_signature := none,
    error := none, opencv_enabled := false }

/-! ### `routes/interview_routes.py`: proctor frame endpoint -/

def HIGH_MOTION_THRESHOLD : ℚ := 0.20

def FACE_MISMATCH_THRESHOLD : ℝ := 0.78

def PERIODIC_SAVE_SECONDS : Int := 10

def SUSPICIOUS_TYPES : List String :=
  ["no_face", "multi_face", "face_mismatch", "high_motion",
   "baseline_no_face", "baseline_multi_face"]

/-- The proctoring-relevant fields of an `InterviewSession` row. The stored
`baseline_face_signature` JSON text column is modelled as the parsed vector
(`json.loads` of a stored `json.dumps` list is the identity; a corrupt or
absent column is `none`). -/
structure PSession where
  status : String
  baseline_face_signature : Option (List ℝ)
  baseline_face_captured_at : Option ℚ

/-- A `ProctorEvent` row, with `meta_json` flattened into fields. The
`round(x, 4)` decimal formatting of `score` and of the similarity in
`meta_json` is omitted, and the timestamped snapshot filename is abstracted
by `proctorImagePath`; claims depend only on the presence of
`image_path`. -/
structure PEvent where
  event_type : String
  score : ℚ
  image_path : Option String
  meta_faces_count : Int
  meta_motion_score : ℚ
  meta_face_similarity : Option ℝ
  meta_baseline_ready : Bool
  meta_suspicious : Bool
  meta_opencv_enabled : Bool
  meta_requested_event_type : String

/-- The snapshot path `uploads/proctoring/{session_id}/{timestamp}.jpg`
relative to `uploads` (timestamp abstracted). -/
def proctorImagePath (session_id : Int) : String :=
  "proctoring/" ++ toString session_id ++ "/frame.jpg"

/-- The response of the `/proctor/frame` endpoint together with the state it
leaves behind: the (possibly baseline-updated) session row, the created
`ProctorEvent` row if one was persisted, and the periodic-save map. The
`face_similarity` response field exists only in the stored response; the
non-stored response is modelled with `none` there. -/
structure ProctorOutcome where
  stored : Bool
  event_type : String
  suspicious : Bool
  motion_score : ℚ
  faces_count : Int
  face_similarity : Option ℝ
  event : Option PEvent
  session : PSession
  pstate : Int → ℚ

/-- The event-type resolution of `upload_proctor_frame` (lines 362-388 of
`interview_routes.py`), returning the resolved event type and the session
(updated when a baseline is captured). Matches the source's priority
order; the face-mismatch test is
`baseline_signature and current_signature and face_similarity is not None
and face_similarity < FACE_MISMATCH_THRESHOLD`. -/
noncomputable def classify_frame (sess : PSession) (requested_event : String)
    (opencv_enabled : Bool) (faces_count : Int)
    (current_signature baseline_signature : Option (List ℝ))
    (face_similarity : Option ℝ) (motion_score : ℚ) (now_ts : ℚ) :
    String × PSession :=
  if requested_event = "baseline" then
    if opencv_enabled = false then ("baseline", sess)
    else if faces_count = 1 ∧ truthyList current_signature then
      ("baseline",
        { sess with baseline_face_signature := current_signature,
                    baseline_face_captured_at := some now_ts })
    else if faces_count = 0 then ("baseline_no_face", sess)
    else ("baseline_multi_face", sess)
  else
    if faces_count = 0 then ("no_face", sess)
    else if 1 < faces_count then ("multi_face", sess)
    else if truthyList baseline_signature ∧ truthyList current_signature ∧
            ∃ v, face_similarity = some v ∧ v < FACE_MISMATCH_THRESHOLD then
      ("face_mismatch", sess)
    else if HIGH_MOTION_THRESHOLD < motion_score then ("high_motion", sess)
    else ("periodic", sess)

/-- Lines 358-360 of `interview_routes.py`: the similarity is computed only
when both the stored baseline and the current signature are truthy
(non-`None`, non-empty) lists. -/
noncomputable def route_similarity (sess : PSession) (frame : FrameResult) :
    Option ℝ :=
  if truthyList sess.baseline_face_signature && truthyList frame.face_signature then
    compare_signatures (sess.baseline_face_signature.getD [])
      (frame.face_signature.getD [])
  else none

/-- `upload_proctor_frame` from `interview_routes.py` after the session
lookup (the 404/403 ownership checks concern other sessions and are
modelled away; note the source has no `status == "completed"` check on this
endpoint). `frame` is the `analyze_frame` result for the uploaded bytes;
`now_ts` stands for both `time.time()` and `datetime.utcnow()`. -/
noncomputable def upload_proctor_frame (sess : PSession) (frame : FrameResult)
    (event_type_form : String) (pst : Int → ℚ) (now_ts : ℚ)
    (session_id : Int) : Except (Int × String) ProctorOutcome :=
  if frame.ok = false then .error (400, frame.error.getD "None") else
  let faces_count := frame.faces_count
  let motion_score := frame.motion_score
  let current_signature := frame.face_signature
  let opencv_enabled := frame.opencv_enabled
  let baseline_signature := sess.baseline_face_signature
  let face_similarity : Option ℝ := route_similarity sess frame
  let requested_event := pyLower (pyStrip event_type_form)
  let rs := classify_frame sess requested_event opencv_enabled faces_count
              current_signature baseline_signature face_similarity motion_score now_ts
  let resolved_event_type := rs.1
  let sess' := rs.2
  let suspicious := SUSPICIOUS_TYPES.contains resolved_event_type
  let pre_store := suspicious || pyStartsWith resolved_event_type "baseline"
  let sp := if resolved_event_type = "periodic" then
              should_store_periodic pst session_id PERIODIC_SAVE_SECONDS now_ts
            else (pre_store, pst)
  if sp.1 = false then
    .ok { stored := false, event_type := resolved_event_type, suspicious := false,
          motion_score := motion_score, faces_count := faces_count,
          face_similarity := none, event := none, session := sess', pstate := sp.2 }
  else
    let score : ℚ :=
      if resolved_event_type = "no_face" ∨ resolved_event_type = "multi_face" ∨
         resolved_event_type = "face_mismatch" then motion_score + 1
      else if resolved_event_type = "high_motion" then motion_score + 7/10
      else if resolved_event_type = "baseline" ∨
              resolved_event_type = "baseline_no_face" ∨
              resolved_event_type = "baseline_multi_face" then
        if resolved_event_type = "baseline" then 0 else 1
      else motion_score
    let ev : PEvent :=
      { event_type := resolved_event_type,
        score := score,
        image_path := some (proctorImagePath session_id),
        meta_faces_count := faces_count,
        meta_motion_score := motion_score,
        meta_face_similarity := face_similarity,
        meta_baseline_ready := sess'.baseline_face_signature.isSome,
        meta_suspicious := suspicious,
        meta_opencv_enabled := opencv_enabled,
        meta_requested_event_type :=
          if requested_event = "" then "scan" else requested_event }
    .ok { stored := true, event_type := resolved_event_type, suspicious := suspicious,
          motion_score := motion_score, faces_count := faces_count,
          face_similarity := face_similarity, event := some ev,
          session := sess', pstate := sp.2 }

end Proctoring

/-! ### `routes/interview_routes.py`: answer endpoint -/

/-- The timing/limit fields of an `InterviewSession` row used by the answer
endpoint. -/
structure ASession where
  status : String
  per_question_seconds : Option Int
  total_time_seconds : Option Int
  remaining_time_seconds : Option Int
  max_questions : Option Int
deriving DecidableEq, Repr

/-- An `InterviewQuestion` row (`interview_questions_v2`). -/
structure AQuestion where
  qid : Int
  text : String
  difficulty : String
  topic : String
  allotted_seconds : Option Int
  answer_text : Option String
  answer_summary : Option String
  relevance_score : Option ℚ
  time_taken_seconds : Option Int
  skipped : Bool
deriving DecidableEq, Repr

/-- The `InterviewAnswerBody` request (pydantic validates
`0 ≤ time_taken_sec ≤ 600`). -/
structure AnswerBody where
  question_id : Int
  answer_text : String
  skipped : Bool
  time_taken_sec : Int
deriving DecidableEq, Repr

/-- The interview context read from the `Result` row and its job:
`source_questions` is `normalize_result_questions(result.interview_questions)`
and `jd_title` is `job.jd_title` when the job row exists (`none` when the
job row is missing or the title column is null). -/
structure ResultCtx where
  source_questions : List QItem
  jd_title : Option String
deriving DecidableEq, Repr

/-- The JSON response of `/interview/answer` (the `ok := True` constant and
the serialized-question formatting are omitted; `next_question` carries the
created row itself). -/
structure AnswerResponse where
  interview_completed : Bool
  remaining_total_seconds : Int
  next_question : Option AQuestion
  question_number : Nat
  max_questions : Int
  time_limit_seconds : Int
deriving DecidableEq, Repr

/-- `sum(1 for item in ordered if item.time_taken_seconds is not None)`. -/
def countAnswered (l : List AQuestion) : Nat :=
  (l.filter (fun q => q.time_taken_seconds.isSome)).length

/-- Assign the updated row to the first question with the given id
(SQLAlchemy mutates the single identity-mapped row). -/
def replaceFirst : List AQuestion → Int → AQuestion → List AQuestion
  | [], _, _ => []
  | x :: xs, qid, nq =>
      if x.qid = qid then nq :: xs else x :: replaceFirst xs qid nq

/-- `_create_next_question` from `interview_routes.py`. `questions` is the
ordered question list of the session, and `newQid` the primary key the
database assigns to the created row. Returns the created row, or `none`
when the question cap or the time budget stops the interview. -/
def create_next_question (sess : ASession) (questions : List AQuestion)
    (ctx : ResultCtx) (last_answer : String) (newQid : Int) :
    Option AQuestion :=
  let max_questions := orElseTruthy sess.max_questions 8
  if (questions.length : Int) ≥ max_questions then none
  else
    let remaining_total :=
      orElseTruthy sess.remaining_time_seconds
        (orElseTruthy sess.total_time_seconds 1200)
    if remaining_total ≤ 0 then none
    else
      let asked_questions := questions.map (fun q => q.text)
      let job_title := strOr ctx.jd_title "the role"
      let generated := next_question_payload ctx.source_questions
        asked_questions questions.length last_answer (some job_title)
      let dynamic_seconds := compute_dynamic_seconds
        (orElseTruthy sess.per_question_seconds 60) questions.length last_answer
      some { qid := newQid, text := generated.text,
             difficulty := generated.difficulty, topic := generated.topic,
             allotted_seconds := some dynamic_seconds, answer_text := none,
             answer_summary := none, relevance_score := none,
             time_taken_seconds := none, skipped := false }

/-- `interview_answer` from `interview_routes.py`. `scorer` is the external
`summarize_and_score` collaborator; `result` is `none` when the `Result`
row is missing; `newQid` is the primary key for a created follow-up
question. The answer-table mirror row (`InterviewAnswer`) duplicates the
fields written onto the question row and is never read back by the engine,
and the `started_at`/`ended_at` timestamp bookkeeping is omitted. Returns
the response together with the updated session and question list. -/
def interview_answer (scorer : String → String → String × ℚ)
    (sess : ASession) (questions : List AQuestion) (result : Option ResultCtx)
    (newQid : Int) (payload : AnswerBody) :
    Except (Int × String) (AnswerResponse × ASession × List AQuestion) :=
  if sess.status = "completed" then
    .error (400, "Interview session already completed")
  else
    match questions.find? (fun q => q.qid = payload.question_id) with
    | none => .error (404, "Question not found in session")
    | some question =>
      if question.time_taken_seconds.isSome then
        .error (400, "Question already answered")
      else
        let question_limit := orElseTruthy question.allotted_seconds
          (orElseTruthy sess.per_question_seconds 60)
        let safe_time_taken := max 0 (min payload.time_taken_sec question_limit)
        let answer_text := if payload.skipped then "" else pyStrip payload.answer_text
        let sr := scorer question.text answer_text
        let question' : AQuestion :=
          { question with
              answer_text := if payload.skipped then none else some answer_text,
              answer_summary := some sr.1,
              relevance_score := some sr.2,
              skipped := payload.skipped,
              time_taken_seconds := some safe_time_taken }
        let questions' := replaceFirst questions payload.question_id question'
        let current_remaining :=
          orElseTruthy sess.remaining_time_seconds
            (orElseTruthy sess.total_time_seconds 1200)
        let remaining' := max 0 (current_remaining - safe_time_taken)
        let sess₁ := { sess with remaining_time_seconds := some remaining' }
        let answered_count := countAnswered questions'
        match result with
        | none => .error (404, "Interview result not found")
        | some ctx =>
          let max_questions := orElseTruthy sess.max_questions 8
          -- `(session.remaining_time_seconds or 0) <= 0` equals `remaining' ≤ 0`
          -- since the truthy fallback only replaces the falsy value 0 by 0.
          if remaining' ≤ 0 ∨ (answered_count : Int) ≥ max_questions then
            .ok ({ interview_completed := true,
                   remaining_total_seconds := remaining',
                   next_question := none,
                   question_number := answered_count,
                   max_questions := max_questions,
                   time_limit_seconds := 0 },
                 { sess₁ with status := "completed" }, questions')
          else
            match create_next_question sess₁ questions' ctx answer_text newQid with
            | none =>
              .ok ({ interview_completed := true,
                     remaining_total_seconds := remaining',
                     next_question := none,
                     question_number := answered_count,
                     max_questions := max_questions,
                     time_limit_seconds := 0 },
                   { sess₁ with status := "completed" }, questions')
            | some next_question =>
              .ok ({ interview_completed := false,
                     remaining_total_seconds := remaining',
                     next_question := some next_question,
                     question_number := answered_count + 1,
                     max_questions := max_questions,
                     time_limit_seconds := orElseTruthy next_question.allotted_seconds
                       (orElseTruthy sess.per_question_seconds 60) },
                   sess₁, questions' ++ [next_question])

/-! ### `routes/interview.py`: prototype phase engine -/

/-- `INTERVIEW_DURATION` (minutes) from `routes/interview.py`. -/
def INTERVIEW_DURATION : Int := 2

/-- Python `int()` truncation toward zero of a float. -/
def pyTrunc (q : ℚ) : Int :=
  if 0 ≤ q then ⌊q⌋ else -⌊-q⌋

/-- The cookie-session state dict of `generate_next_question` after
initialization. -/
structure FlowSession where
  asked_questions : String
  question_count : Nat
  phase : String
  followup_depth : Nat
  current_topic : Option String
  projects : List String
  experiences : List String
  covered_projects : List String
deriving DecidableEq, Repr

/-- Python truthiness of an optional string: `None` and `""` are falsy. -/
def truthyStrOpt (x : Option String) : Bool :=
  match x with
  | none => false
  | some s => s ≠ ""

/-- The bounded anti-repetition loop of `generate_next_question` (3
attempts; an attempt is kept when its stripped lower-cased text is not a
substring of the lower-cased asked history). `gen i` is the text returned
by the external `generate_dynamic_question` collaborator on attempt `i`. -/
def firstFresh (gen : Nat → String) (asked_questions : String) :
    List Nat → Option String
  | [] => none
  | i :: rest =>
      let clean := pyLower (pyStrip (gen i))
      if hasSub clean.data (pyLower asked_questions).data then
        firstFresh gen asked_questions rest
      else some (gen i)

/-- The fixed introduction prompt of `generate_next_question`. -/
def introPrompt : String :=
  "Introduce yourself. Explain your academic background, " ++
  "work experience, technical strengths, and key projects."

/-- `generate_next_question` from `routes/interview.py`, after session
initialization (the caller's `Result`/`Candidate`/`Job` lookups are
modelled away). `gen i` is attempt `i` of the external question generator;
`elapsed_minutes` is the wall-clock time since `interview_start`;
`extracted_projects`/`extracted_experiences` are the deduplicated regex
extractions from the resume, used only when the stored lists are empty.
Returns the session to store (`none` models `request.session.clear()`) and
the response question text.

The source reads `followup_depth` into a local before the weak-answer
check writes the 999 sentinel into the session dict; the phase engine
tests the local value but increments/resets the dict value. -/
def generate_next_question (gen : Nat → String) (sess : FlowSession)
    (last_answer : String) (elapsed_minutes : ℚ)
    (extracted_projects extracted_experiences : List String) :
    Option FlowSession × String :=
  if (INTERVIEW_DURATION : ℚ) ≤ elapsed_minutes then
    (none, "INTERVIEW_COMPLETE")
  else
    let remaining_minutes : Int := INTERVIEW_DURATION - pyTrunc elapsed_minutes
    let question_mode :=
      if remaining_minutes ≤ 1 then "lightning"
      else if remaining_minutes ≤ 3 then "rapid"
      else "deep"
    let asked_questions := sess.asked_questions
    let question_count := sess.question_count
    let phase := sess.phase
    let followup_depth := sess.followup_depth
    let current_topic := sess.current_topic
    let weak_answer := last_answer ≠ "" ∧ (pyStrip last_answer).length < 15
    let sess₁ := if weak_answer then { sess with followup_depth := 999 } else sess
    if phase = "intro" then
      (some { sess₁ with phase := "resume", asked_questions := introPrompt,
                         question_count := 1 }, introPrompt)
    else
      let sess₂ :=
        { sess₁ with
            projects := if sess₁.projects.isEmpty then extracted_projects
                        else sess₁.projects,
            experiences := if sess₁.experiences.isEmpty then extracted_experiences
                           else sess₁.experiences }
      let projects := sess₂.projects
      let experiences := sess₂.experiences
      let covered_projects := sess₂.covered_projects
      -- phase engine: `stage`, `current_project`, `current_experience` are
      -- locals; the session dict is updated per branch.
      let step : FlowSession × String × Bool :=
        if phase = "resume" then
          if followup_depth ≥ 2 then
            ({ sess₂ with phase := "experience", followup_depth := 0 },
             "basics", false)
          else
            ({ sess₂ with followup_depth := sess₂.followup_depth + 1 },
             "basics", false)
        else if phase = "experience" ∧ ¬experiences.isEmpty then
          let ct := if truthyStrOpt current_topic then current_topic
                    else some (experiences.headD "")
          let s := { sess₂ with current_topic := ct }
          if followup_depth ≥ 2 ∨ question_mode ≠ "deep" then
            ({ s with phase := "project", current_topic := none,
                      followup_depth := 0 }, "experience", false)
          else
            ({ s with followup_depth := s.followup_depth + 1 },
             "experience", false)
        else if phase = "project" ∧ ¬projects.isEmpty then
          -- the for-loop writes `current_topic` only when it finds an
          -- uncovered project; otherwise both the local and the dict value
          -- keep their previous (falsy) value.
          let found := projects.find? (fun p => !covered_projects.contains p)
          let ct := if truthyStrOpt current_topic then current_topic
                    else match found with
                         | some p => some p
                         | none => current_topic
          let s := if truthyStrOpt current_topic then sess₂
                   else match found with
                        | some p => { sess₂ with current_topic := some p }
                        | none => sess₂
          if followup_depth ≥ 2 ∨ question_mode ≠ "deep" then
            let covered' :=
              match ct with
              | some p => if p ≠ "" ∧ !covered_projects.contains p then
                            covered_projects ++ [p]
                          else covered_projects
              | none => covered_projects
            let nextPhase := if covered'.length ≥ projects.length then "system"
                             else "project"
            ({ s with covered_projects := covered', current_topic := none,
                      followup_depth := 0, phase := nextPhase },
             "advanced_projects", false)
          else
            ({ s with followup_depth := s.followup_depth + 1 },
             "advanced_projects", false)
        else if phase = "system" then
          if followup_depth ≥ 1 ∨ question_mode ≠ "deep" then
            ({ sess₂ with phase := "hr", followup_depth := 0 },
             "deep_dive", false)
          else
            ({ sess₂ with followup_depth := sess₂.followup_depth + 1 },
             "deep_dive", false)
        else if phase = "hr" then
          if remaining_minutes ≤ 0 then (sess₂, "hr", true)
          else (sess₂, "hr", false)
        else (sess₂, "basics", false)
      if step.2.2 then
        (none, "Thank you for attending the interview.")
      else
        let sess₃ := step.1
        let question := (firstFresh gen asked_questions [0, 1, 2]).getD
          "Explain a complex technical challenge you solved recently."
        (some { sess₃ with
                  asked_questions := asked_questions ++ "\n" ++ question,
                  question_count := question_count + 1 }, question)

end InterviewBot

namespace InterviewBot

/-! ### Helper lemmas -/

theorem find?_first_hit {α : Type} (p : α → Bool) (pre : List α)
    (item : α) (rest : List α) (hpre : ∀ x ∈ pre, p x = false)
    (hitem : p item = true) :
    (pre ++ item :: rest).find? p = some item := by
  induction pre with
  | nil => simp [List.find?, hitem]
  | cons a as ih =>
      have ha := hpre a (List.mem_cons_self a as)
      simp only [List.cons_append, List.find?, ha]
      exact ih (fun x hx => hpre x (List.mem_cons_of_mem a hx))

theorem find?_none_of_all {α : Type} (p : α → Bool) (l : List α)
    (h : ∀ x ∈ l, p x = false) : l.find? p = none := by
  rw [List.find?_eq_none]
  intro x hx
  simp [h x hx]

theorem next_question_payload_exhausted (src : List QItem)
    (asked : List String) (idx : Nat) (ans : String) (jd : Option String)
    (h : ∀ x ∈ src, (asked_norm_set asked).contains (pyLower (pyStrip x.text)) = true) :
    next_question_payload src asked idx ans jd = fallback_payload idx ans jd := by
  simp only [next_question_payload]
  rw [find?_none_of_all _ _ (fun x hx => by simpa using h x hx)]

theorem next_question_payload_first (pre : List QItem) (item : QItem)
    (rest : List QItem) (asked : List String) (idx : Nat) (ans : String)
    (jd : Option String)
    (hpre : ∀ x ∈ pre, (asked_norm_set asked).contains (pyLower (pyStrip x.text)) = true)
    (hitem : (asked_norm_set asked).contains (pyLower (pyStrip item.text)) = false) :
    next_question_payload (pre ++ item :: rest) asked idx ans jd =
      ⟨pyStrip item.text, item.difficulty, item.topic⟩ := by
  simp only [next_question_payload]
  rw [find?_first_hit _ pre item rest
        (fun x hx => by simpa using hpre x hx) (by simpa using hitem)]

theorem string_append_assoc (a b c : String) : a ++ b ++ c = a ++ (b ++ c) := by
  apply String.ext
  simp [List.append_assoc]

/-! ### C2 -/

/-- C2: `compute_dynamic_seconds` returns
`base + stage_bonus(stage) + length_adjustment(word_count)` clamped to
`[30, 180]`; the stage bonuses are 0 (basics), +10 (experience),
+20 (system), +5 (behavioral); the length adjustment is −10 below 15 words,
+15 above 80 words, 0 otherwise; the result is always in `[30, 180]`; and
for base 60, a system-stage index and a 100-word answer it is 95. -/
theorem C2_compute_dynamic_seconds :
    (∀ (base : Int) (idx : Nat) (ans : String),
        compute_dynamic_seconds base idx ans =
          max 30 (min 180 (base + stage_bonus (stage_for_question_index idx) +
            (if (pyWords ans).length < 15 then -10
             else if (pyWords ans).length > 80 then 15 else 0)))) ∧
    (stage_bonus "basics" = 0 ∧ stage_bonus "experience" = 10 ∧
      stage_bonus "system" = 20 ∧ stage_bonus "behavioral" = 5) ∧
    (∀ (base : Int) (idx : Nat) (ans : String),
        30 ≤ compute_dynamic_seconds base idx ans ∧
        compute_dynamic_seconds base idx ans ≤ 180) ∧
    (∀ (idx : Nat) (ans : String),
        stage_for_question_index idx = "system" →
        (pyWords ans).length = 100 →
        compute_dynamic_seconds 60 idx ans = 95) := by
  refine ⟨fun base idx ans => rfl, ⟨rfl, rfl, rfl, rfl⟩, ?_, ?_⟩
  · intro base idx ans
    unfold compute_dynamic_seconds
    constructor
    · exact le_max_left _ _
    · exact max_le (by norm_num) (min_le_left _ _)
  · intro idx ans h1 h2
    unfold compute_dynamic_seconds
    rw [h1, h2]
    decide

/-- Witness for C2: a concrete 100-word answer at the system-stage index 5
with base 60 yields 95 seconds. -/
theorem C2_witness :
    compute_dynamic_seconds 60 5 (String.intercalate " " (List.replicate 100 "w")) = 95 :=
  C2_compute_dynamic_seconds.2.2.2 5 _ (by decide) (by decide)

/-! ### C9 -/

/-- C9 counterexample: a question drawn from the pre-supplied pool keeps the
difficulty supplied with the pool entry ("strange"), which differs from the
stage-derived difficulty ("easy" at a basics-stage index), so difficulty is
not derived from the stage alone for every produced question. -/
theorem C9_counterexample :
    stage_for_question_index 0 = "basics" ∧
    difficulty_for_stage "basics" = "easy" ∧
    (next_question_payload [⟨"Custom pool question", "strange", "general"⟩]
        [] 0 "" none).difficulty = "strange" ∧
    (next_question_payload [⟨"Custom pool question", "strange", "general"⟩]
        [] 0 "" none).difficulty ≠
      difficulty_for_stage (stage_for_question_index 0) := by
  decide

/-- C9 amended: fallback questions (produced when the pre-supplied pool is
exhausted) derive their difficulty from the stage alone — basics→easy,
experience→medium, every other stage→hard — while a question taken from the
pre-supplied pool keeps the difficulty supplied with the pool entry. -/
theorem C9_difficulty_amended :
    (∀ (src : List QItem) (asked : List String) (idx : Nat) (ans : String)
       (jd : Option String),
       (∀ x ∈ src, (asked_norm_set asked).contains (pyLower (pyStrip x.text)) = true) →
       (next_question_payload src asked idx ans jd).difficulty =
         difficulty_for_stage (stage_for_question_index idx)) ∧
    difficulty_for_stage "basics" = "easy" ∧
    difficulty_for_stage "experience" = "medium" ∧
    (∀ s, s ≠ "basics" → s ≠ "experience" → difficulty_for_stage s = "hard") ∧
    (∀ (pre : List QItem) (item : QItem) (rest : List QItem)
       (asked : List String) (idx : Nat) (ans : String) (jd : Option String),
       (∀ x ∈ pre, (asked_norm_set asked).contains (pyLower (pyStrip x.text)) = true) →
       (asked_norm_set asked).contains (pyLower (pyStrip item.text)) = false →
       (next_question_payload (pre ++ item :: rest) asked idx ans jd).difficulty =
         item.difficulty) := by
  refine ⟨?_, rfl, rfl, ?_, ?_⟩
  · intro src asked idx ans jd h
    rw [next_question_payload_exhausted src asked idx ans jd h]
    rfl
  · intro s h1 h2
    simp [difficulty_for_stage, h1, h2]
  · intro pre item rest asked idx ans jd hpre hitem
    rw [next_question_payload_first pre item rest asked idx ans jd hpre hitem]

/-- Witness for the amended C9: with an exhausted (empty) pool at index 7
the fallback difficulty is the stage-derived "hard"; with a fresh pool
entry of difficulty "custom" at index 0, the produced difficulty is
"custom". -/
theorem C9_witness :
    (next_question_payload [] [] 7 "" none).difficulty = "hard" ∧
    (next_question_payload [⟨"Q one", "custom", "t"⟩] [] 0 "" none).difficulty
      = "custom" := by
  constructor
  · have h := C9_difficulty_amended.1 [] [] 7 "" none (by intro x hx; cases hx)
    simpa using h
  · have h := C9_difficulty_amended.2.2.2.2 [] ⟨"Q one", "custom", "t"⟩ [] [] 0 "" none
      (by intro x hx; cases hx) (by decide)
    simpa using h

/-! ### C8 -/

/-- C8: the question source scans the pre-supplied pool in order and
returns the first entry whose normalized (stripped, lower-cased) text is
not in the normalized asked set; once the pool is exhausted the result is
the fallback payload, which depends only on the question index, the
previous answer and the job title, and whose text starts with the
stage-template `fallback_template idx` selected by
`question_index mod bank_size` — deterministic given the (stage, question
index) pair. -/
theorem C8_question_source :
    (∀ (pre : List QItem) (item : QItem) (rest : List QItem)
       (asked : List String) (idx : Nat) (ans : String) (jd : Option String),
       (∀ x ∈ pre, (asked_norm_set asked).contains (pyLower (pyStrip x.text)) = true) →
       (asked_norm_set asked).contains (pyLower (pyStrip item.text)) = false →
       next_question_payload (pre ++ item :: rest) asked idx ans jd =
         ⟨pyStrip item.text, item.difficulty, item.topic⟩) ∧
    (∀ (src : List QItem) (asked : List String) (idx : Nat) (ans : String)
       (jd : Option String),
       (∀ x ∈ src, (asked_norm_set asked).contains (pyLower (pyStrip x.text)) = true) →
       next_question_payload src asked idx ans jd = fallback_payload idx ans jd) ∧
    (∀ (idx : Nat) (ans : String) (jd : Option String),
       ∃ tail, (fallback_payload idx ans jd).text = fallback_template idx ++ tail) := by
  refine ⟨next_question_payload_first, next_question_payload_exhausted, ?_⟩
  intro idx ans jd
  simp only [fallback_payload]
  split
  · exact ⟨_, by rw [string_append_assoc, string_append_assoc]⟩
  · split
    · exact ⟨_, by rw [string_append_assoc, string_append_assoc]⟩
    · exact ⟨_, by rw [string_append_assoc, string_append_assoc]⟩

/-- Witness for C8: a fresh pool entry is returned stripped; an exhausted
pool yields the fallback payload; the index-7 fallback text starts with the
behavioral-stage template at index 7 mod 2 = 1. -/
theorem C8_witness :
    next_question_payload [⟨" Q one ", "d", "t"⟩] ["asked"] 0 "" none
      = ⟨"Q one", "d", "t"⟩ ∧
    next_question_payload [] ["asked"] 7 "" (some "Data Engineer")
      = fallback_payload 7 "" (some "Data Engineer") ∧
    ∃ tail, (fallback_payload 7 "" (some "Data Engineer")).text =
      fallback_template 7 ++ tail := by
  refine ⟨?_, ?_, C8_question_source.2.2 7 "" (some "Data Engineer")⟩
  · have h := C8_question_source.1 [] ⟨" Q one ", "d", "t"⟩ [] ["asked"] 0 "" none
      (by intro x hx; cases hx) (by decide)
    simpa using h
  · exact C8_question_source.2.1 [] ["asked"] 7 "" (some "Data Engineer")
      (by intro x hx; cases hx)


/-! ### C7 -/

theorem sumSq_nonneg (a : List ℝ) : 0 ≤ sumSq a := by
  induction a with
  | nil => simp [sumSq]
  | cons x xs ih =>
      have hx := sq_nonneg x
      have hcons : sumSq (x :: xs) = x ^ 2 + sumSq xs := rfl
      rw [hcons]
      linarith

theorem dot_sq_le_sumSq_mul (a : List ℝ) :
    ∀ b : List ℝ, (dot a b) ^ 2 ≤ sumSq a * sumSq b := by
  induction a with
  | nil =>
      intro b
      have h : dot [] b = 0 := rfl
      have h2 : sumSq ([] : List ℝ) = 0 := rfl
      rw [h, h2]
      simp
  | cons x xs ih =>
      intro b
      cases b with
      | nil =>
          have h : dot (x :: xs) [] = 0 := rfl
          have h2 : sumSq ([] : List ℝ) = 0 := rfl
          rw [h, h2]
          simp
      | cons y ys =>
          have h := ih ys
          have hxs := sumSq_nonneg xs
          have hys := sumSq_nonneg ys
          have hcons : dot (x :: xs) (y :: ys) = x * y + dot xs ys := rfl
          have hsx : sumSq (x :: xs) = x ^ 2 + sumSq xs := rfl
          have hsy : sumSq (y :: ys) = y ^ 2 + sumSq ys := rfl
          rw [hcons, hsx, hsy]
          rcases eq_or_lt_of_le hys with h0 | hpos
          · have hd0 : (dot xs ys) ^ 2 = 0 := by
              have hle : (dot xs ys) ^ 2 ≤ 0 := by
                calc (dot xs ys) ^ 2 ≤ sumSq xs * sumSq ys := h
                _ = 0 := by rw [← h0, mul_zero]
              exact le_antisymm hle (sq_nonneg _)
            have hd : dot xs ys = 0 := by
              exact sq_eq_zero_iff.mp hd0
            rw [hd, ← h0]
            nlinarith [mul_nonneg hxs (sq_nonneg y)]
          · nlinarith [sq_nonneg (x * sumSq ys - y * dot xs ys),
                       mul_nonneg (sub_nonneg.mpr h) (sq_nonneg y),
                       mul_nonneg (le_of_lt hpos) (sub_nonneg.mpr h)]

/-- C7 counterexample: the zero vectors `[0]` and `[0]` are non-empty and
of equal length, yet `compare_signatures` returns `none` (the norm product
falls below the 1e-8 guard), so the claim's "value in [-1, 1]" case does
not cover all non-empty equal-length pairs. -/
theorem C7_counterexample :
    ([(0:ℝ)] ≠ ([] : List ℝ)) ∧
    ([(0:ℝ)].length = [(0:ℝ)].length) ∧
    compare_signatures [(0:ℝ)] [(0:ℝ)] = none := by
  refine ⟨by simp, rfl, ?_⟩
  have h0 : sumSq [(0:ℝ)] = 0 := by
    have : sumSq [(0:ℝ)] = (0:ℝ) ^ 2 + sumSq [] := rfl
    rw [this]
    simp [sumSq]
  simp only [compare_signatures]
  rw [if_neg (by simp), if_neg (by simp),
      if_pos (by rw [h0, Real.sqrt_zero, zero_mul]; norm_num)]

/-- C7 amended: when both vectors are non-empty, of equal length, and the
product of the norms exceeds the 1e-8 degeneracy guard, the cosine
similarity is defined and lies in [-1, 1]; it is `none` when either vector
is empty or the lengths differ (and also, per the counterexample, when the
norm product is at most 1e-8). -/
theorem C7_compare_signatures_amended :
    (∀ a b : List ℝ, a ≠ [] → b ≠ [] → a.length = b.length →
       (1e-8 : ℝ) < Real.sqrt (sumSq a) * Real.sqrt (sumSq b) →
       ∃ v, compare_signatures a b = some v ∧ -1 ≤ v ∧ v ≤ 1) ∧
    (∀ a b : List ℝ, a = [] ∨ b = [] ∨ a.length ≠ b.length →
       compare_signatures a b = none) := by
  constructor
  · intro a b ha hb hlen hden
    have hdpos : (0:ℝ) < Real.sqrt (sumSq a) * Real.sqrt (sumSq b) :=
      lt_trans (by norm_num) hden
    have habs : |dot a b| ≤ Real.sqrt (sumSq a) * Real.sqrt (sumSq b) := by
      calc |dot a b| = Real.sqrt ((dot a b) ^ 2) := (Real.sqrt_sq_eq_abs _).symm
      _ ≤ Real.sqrt (sumSq a * sumSq b) := Real.sqrt_le_sqrt (dot_sq_le_sumSq_mul a b)
      _ = Real.sqrt (sumSq a) * Real.sqrt (sumSq b) := Real.sqrt_mul (sumSq_nonneg a) _
    have hin : |dot a b / (Real.sqrt (sumSq a) * Real.sqrt (sumSq b))| ≤ 1 := by
      rw [abs_div, abs_of_pos hdpos]
      exact (div_le_one hdpos).mpr habs
    have hrange := abs_le.mp hin
    simp only [compare_signatures]
    rw [if_neg (by simp [ha, hb]), if_neg (by simpa using hlen),
        if_neg (not_le.mpr hden)]
    exact ⟨_, rfl, hrange.1, hrange.2⟩
  · intro a b h
    rcases h with h | h | h
    · simp [compare_signatures, h]
    · simp [compare_signatures, h]
    · simp only [compare_signatures]
      split
      · rfl
      · simp [h]

/-- Witness for the amended C7: at `[1]` and `[1]` the similarity is
defined and lies in [-1, 1]. -/
theorem C7_witness :
    ∃ v, compare_signatures [(1:ℝ)] [(1:ℝ)] = some v ∧ -1 ≤ v ∧ v ≤ 1 :=
  C7_compare_signatures_amended.1 [1] [1] (by simp) (by simp) rfl
    (by
      have h1 : sumSq [(1:ℝ)] = 1 := by
        have : sumSq [(1:ℝ)] = (1:ℝ) ^ 2 + sumSq [] := rfl
        rw [this]
        simp [sumSq]
      rw [h1, Real.sqrt_one, mul_one]
      norm_num)


/-! ### C6 -/

/-- C6 counterexample: in phase "resume" with `followup_depth` 0, a weak
previous answer ("hi": non-empty, fewer than 15 characters after stripping)
stores the 999 sentinel into the session (incremented to 1000 by the
non-advance branch), but the advance condition is evaluated against the
previously read depth 0, so the phase stays "resume" on that same
submission instead of advancing. -/
theorem C6_counterexample :
    ("hi" ≠ "" ∧ (pyStrip "hi").length < 15) ∧
    (generate_next_question (fun _ => "Walk me through your most recent project.")
        ⟨"intro text", 1, "resume", 0, none, [], [], []⟩ "hi" 0 [] []).1 =
      some ⟨"intro text\nWalk me through your most recent project.", 2,
            "resume", 1000, none, [], [], []⟩ := by
  decide

theorem resume_stay (gen : Nat → String) (sess : FlowSession) (ans : String)
    (elapsed : ℚ) (ps es : List String)
    (hphase : sess.phase = "resume") (hdepth : ¬ sess.followup_depth ≥ 2)
    (hweak : ans ≠ "" ∧ (pyStrip ans).length < 15) (helapsed : elapsed < 2) :
    generate_next_question gen sess ans elapsed ps es =
      (some ⟨sess.asked_questions ++ "\n" ++
               ((firstFresh gen sess.asked_questions [0, 1, 2]).getD
                 "Explain a complex technical challenge you solved recently."),
             sess.question_count + 1, sess.phase, 1000, sess.current_topic,
             (if sess.projects.isEmpty then ps else sess.projects),
             (if sess.experiences.isEmpty then es else sess.experiences),
             sess.covered_projects⟩,
       (firstFresh gen sess.asked_questions [0, 1, 2]).getD
         "Explain a complex technical challenge you solved recently.") := by
  have hdur : ¬((INTERVIEW_DURATION : ℚ) ≤ elapsed) := by
    simp only [INTERVIEW_DURATION]
    push_cast
    linarith
  have hni : ¬(sess.phase = "intro") := by
    rw [hphase]
    decide
  simp only [generate_next_question]
  rw [if_neg hdur, if_pos hweak, if_neg hni, if_pos hphase, if_neg hdepth]
  rfl

theorem resume_advance (gen : Nat → String) (sess : FlowSession) (ans : String)
    (elapsed : ℚ) (ps es : List String)
    (hphase : sess.phase = "resume") (hdepth : sess.followup_depth ≥ 2)
    (helapsed : elapsed < 2) :
    (generate_next_question gen sess ans elapsed ps es).1.map FlowSession.phase =
      some "experience" ∧
    (generate_next_question gen sess ans elapsed ps es).1.map
      FlowSession.followup_depth = some 0 := by
  have hdur : ¬((INTERVIEW_DURATION : ℚ) ≤ elapsed) := by
    simp only [INTERVIEW_DURATION]
    push_cast
    linarith
  have hni : ¬(sess.phase = "intro") := by
    rw [hphase]
    decide
  by_cases hweak : ans ≠ "" ∧ (pyStrip ans).length < 15
  · constructor <;>
      (simp only [generate_next_question]
       rw [if_neg hdur, if_pos hweak, if_neg hni, if_pos hphase, if_pos hdepth]
       rfl)
  · constructor <;>
      (simp only [generate_next_question]
       rw [if_neg hdur, if_neg hweak, if_neg hni, if_pos hphase, if_pos hdepth]
       rfl)

/-- C6 amended: a weak previous answer (non-empty, fewer than 15 characters
after stripping) writes the 999 sentinel into the stored `followup_depth`
before the advance condition is evaluated, but the condition reads the
depth value loaded earlier, so the sentinel never forces an advance on the
same submission. In phase "resume" — the phase whose advance condition
depends on the depth alone (in experience/project/system the
`question_mode ≠ "deep"` disjunct can advance the phase on the same
submission regardless of the sentinel) — a weak answer with a stored depth
below the threshold leaves the phase at "resume" on that submission; the
stored sentinel (incremented to 1000) makes the advance condition hold on
the next submission, which moves the phase to "experience" and resets the
depth. -/
theorem C6_weak_answer_amended :
    ∀ (gen : Nat → String) (asked : String) (qc d : Nat)
      (topic : Option String) (projects experiences covered : List String)
      (ans : String) (elapsed : ℚ) (ps es : List String),
      d < 2 → ans ≠ "" → (pyStrip ans).length < 15 → elapsed < 2 →
      ∃ sess₁ q₁,
        generate_next_question gen
            ⟨asked, qc, "resume", d, topic, projects, experiences, covered⟩
            ans elapsed ps es = (some sess₁, q₁) ∧
        sess₁.phase = "resume" ∧
        sess₁.followup_depth = 1000 ∧
        (∀ (gen₂ : Nat → String) (ans₂ : String) (elapsed₂ : ℚ)
           (ps₂ es₂ : List String), elapsed₂ < 2 →
           (generate_next_question gen₂ sess₁ ans₂ elapsed₂ ps₂ es₂).1.map
               FlowSession.phase = some "experience" ∧
           (generate_next_question gen₂ sess₁ ans₂ elapsed₂ ps₂ es₂).1.map
               FlowSession.followup_depth = some 0) := by
  intro gen asked qc d topic projects experiences covered ans elapsed ps es
    hd hans hlen helapsed
  have h₁ := resume_stay gen
      ⟨asked, qc, "resume", d, topic, projects, experiences, covered⟩
      ans elapsed ps es rfl (by show ¬(d ≥ 2); omega) ⟨hans, hlen⟩ helapsed
  refine ⟨_, _, h₁, rfl, rfl, ?_⟩
  intro gen₂ ans₂ elapsed₂ ps₂ es₂ helapsed₂
  exact resume_advance gen₂ _ ans₂ elapsed₂ ps₂ es₂ rfl
    (by show (1000 : Nat) ≥ 2; omega) helapsed₂

/-- Witness for the amended C6 at a concrete session. -/
theorem C6_witness :
    ∃ sess₁ q₁,
      generate_next_question (fun _ => "Tell me more.")
          ⟨"intro", 1, "resume", 0, none, [], [], []⟩ "hi" 0 [] [] =
        (some sess₁, q₁) ∧
      sess₁.phase = "resume" ∧
      sess₁.followup_depth = 1000 ∧
      (∀ (gen₂ : Nat → String) (ans₂ : String) (elapsed₂ : ℚ)
         (ps₂ es₂ : List String), elapsed₂ < 2 →
         (generate_next_question gen₂ sess₁ ans₂ elapsed₂ ps₂ es₂).1.map
             FlowSession.phase = some "experience" ∧
         (generate_next_question gen₂ sess₁ ans₂ elapsed₂ ps₂ es₂).1.map
             FlowSession.followup_depth = some 0) :=
  C6_weak_answer_amended (fun _ => "Tell me more.") "intro" 1 0 none [] [] []
    "hi" 0 [] [] (by norm_num) (by decide) (by decide) (by norm_num)

end InterviewBot

namespace InterviewBot

/-! ### Route lemmas for the proctor frame endpoint -/

theorem classify_no_face (sess : PSession) (req : String) (opencv : Bool)
    (faces : Int) (sig baseline : Option (List ℝ)) (sim : Option ℝ)
    (motion now : ℚ) (hreq : ¬(req = "baseline")) (hf : faces = 0) :
    classify_frame sess req opencv faces sig baseline sim motion now =
      ("no_face", sess) := by
  unfold classify_frame
  rw [if_neg hreq, if_pos hf]

theorem classify_multi_face (sess : PSession) (req : String) (opencv : Bool)
    (faces : Int) (sig baseline : Option (List ℝ)) (sim : Option ℝ)
    (motion now : ℚ) (hreq : ¬(req = "baseline")) (hf0 : ¬(faces = 0))
    (hf : 1 < faces) :
    classify_frame sess req opencv faces sig baseline sim motion now =
      ("multi_face", sess) := by
  unfold classify_frame
  rw [if_neg hreq, if_neg hf0, if_pos hf]

theorem classify_face_mismatch (sess : PSession) (req : String) (opencv : Bool)
    (faces : Int) (sig baseline : Option (List ℝ)) (sim : Option ℝ)
    (motion now : ℚ) (hreq : ¬(req = "baseline")) (hf0 : ¬(faces = 0))
    (hf1 : ¬(1 < faces))
    (hc : truthyList baseline = true ∧ truthyList sig = true ∧
          ∃ v, sim = some v ∧ v < FACE_MISMATCH_THRESHOLD) :
    classify_frame sess req opencv faces sig baseline sim motion now =
      ("face_mismatch", sess) := by
  unfold classify_frame
  rw [if_neg hreq, if_neg hf0, if_neg hf1, if_pos hc]

theorem classify_high_motion (sess : PSession) (req : String) (opencv : Bool)
    (faces : Int) (sig baseline : Option (List ℝ)) (sim : Option ℝ)
    (motion now : ℚ) (hreq : ¬(req = "baseline")) (hf0 : ¬(faces = 0))
    (hf1 : ¬(1 < faces))
    (hn : ¬(truthyList baseline = true ∧ truthyList sig = true ∧
            ∃ v, sim = some v ∧ v < FACE_MISMATCH_THRESHOLD))
    (hm : HIGH_MOTION_THRESHOLD < motion) :
    classify_frame sess req opencv faces sig baseline sim motion now =
      ("high_motion", sess) := by
  unfold classify_frame
  rw [if_neg hreq, if_neg hf0, if_neg hf1, if_neg hn, if_pos hm]

theorem classify_periodic (sess : PSession) (req : String) (opencv : Bool)
    (faces : Int) (sig baseline : Option (List ℝ)) (sim : Option ℝ)
    (motion now : ℚ) (hreq : ¬(req = "baseline")) (hf0 : ¬(faces = 0))
    (hf1 : ¬(1 < faces))
    (hn : ¬(truthyList baseline = true ∧ truthyList sig = true ∧
            ∃ v, sim = some v ∧ v < FACE_MISMATCH_THRESHOLD))
    (hm : ¬(HIGH_MOTION_THRESHOLD < motion)) :
    classify_frame sess req opencv faces sig baseline sim motion now =
      ("periodic", sess) := by
  unfold classify_frame
  rw [if_neg hreq, if_neg hf0, if_neg hf1, if_neg hn, if_neg hm]

theorem classify_baseline_disabled (sess : PSession) (req : String)
    (opencv : Bool) (faces : Int) (sig baseline : Option (List ℝ))
    (sim : Option ℝ) (motion now : ℚ) (hreq : req = "baseline")
    (hop : opencv = false) :
    classify_frame sess req opencv faces sig baseline sim motion now =
      ("baseline", sess) := by
  unfold classify_frame
  rw [if_pos hreq, if_pos hop]

theorem upload_frame_ok_fields (sess : PSession) (frame : FrameResult)
    (et : String) (pst : Int → ℚ) (now : ℚ) (sid : Int)
    (rs : String × PSession) (h : frame.ok = true)
    (hrs : classify_frame sess (pyLower (pyStrip et)) frame.opencv_enabled
        frame.faces_count frame.face_signature sess.baseline_face_signature
        (route_similarity sess frame) frame.motion_score now = rs) :
    ∃ out, upload_proctor_frame sess frame et pst now sid = Except.ok out ∧
      out.event_type = rs.1 ∧
      out.session = rs.2 ∧
      out.motion_score = frame.motion_score ∧
      out.faces_count = frame.faces_count ∧
      (¬(rs.1 = "periodic") → out.pstate = pst ∧
        out.stored = (SUSPICIOUS_TYPES.contains rs.1 || pyStartsWith rs.1 "baseline")) ∧
      (rs.1 = "periodic" →
        out.stored = (should_store_periodic pst sid PERIODIC_SAVE_SECONDS now).1 ∧
        out.pstate = (should_store_periodic pst sid PERIODIC_SAVE_SECONDS now).2) ∧
      (out.stored = true → ∃ ev, out.event = some ev ∧
        ev.image_path = some (proctorImagePath sid) ∧ ev.event_type = rs.1) ∧
      (out.stored = false → out.event = none) := by
  simp only [upload_proctor_frame]
  rw [if_neg (by simp [h]), hrs]
  by_cases hp : rs.1 = "periodic"
  · rw [if_pos hp]
    by_cases hb : (should_store_periodic pst sid PERIODIC_SAVE_SECONDS now).1 = false
    · rw [if_pos hb]
      refine ⟨_, rfl, rfl, rfl, rfl, rfl, fun habs => absurd hp habs, ?_, ?_, fun _ => rfl⟩
      · exact fun _ => ⟨hb.symm, rfl⟩
      · intro habs
        simp at habs
    · rw [if_neg hb]
      have hbt : (should_store_periodic pst sid PERIODIC_SAVE_SECONDS now).1 = true := by
        revert hb
        cases (should_store_periodic pst sid PERIODIC_SAVE_SECONDS now).1 <;> simp
      refine ⟨_, rfl, rfl, rfl, rfl, rfl, fun habs => absurd hp habs, ?_, ?_, ?_⟩
      · exact fun _ => ⟨hbt.symm, rfl⟩
      · exact fun _ => ⟨_, rfl, rfl, rfl⟩
      · intro habs
        simp at habs
  · rw [if_neg hp]
    by_cases hb : (SUSPICIOUS_TYPES.contains rs.1 || pyStartsWith rs.1 "baseline") = false
    · rw [if_pos hb]
      refine ⟨_, rfl, rfl, rfl, rfl, rfl, fun _ => ⟨rfl, hb.symm⟩,
        fun habs => absurd habs hp, ?_, fun _ => rfl⟩
      intro habs
      simp at habs
    · rw [if_neg hb]
      have hbt : (SUSPICIOUS_TYPES.contains rs.1 || pyStartsWith rs.1 "baseline") = true := by
        revert hb
        cases (SUSPICIOUS_TYPES.contains rs.1 || pyStartsWith rs.1 "baseline") <;> simp
      refine ⟨_, rfl, rfl, rfl, rfl, rfl, fun _ => ⟨rfl, hbt.symm⟩,
        fun habs => absurd habs hp, fun _ => ⟨_, rfl, rfl, rfl⟩, ?_⟩
      intro habs
      simp at habs

end InterviewBot

namespace InterviewBot

/-! ### C3 -/

/-- C3: for scan-intent frames the classifier applies the fixed priority
order — zero faces ⇒ `no_face`; more than one face ⇒ `multi_face`; exactly
one face with a truthy baseline, a truthy signature and similarity below
0.78 ⇒ `face_mismatch` (regardless of the motion score); otherwise motion
above 0.20 ⇒ `high_motion`; otherwise `periodic` — and a scan frame with
zero faces is always persisted with its snapshot. -/
theorem C3_scan_classifier :
    (∀ (sess : PSession) (req : String) (opencv : Bool) (faces : Int)
       (sig baseline : Option (List ℝ)) (sim : Option ℝ) (motion now : ℚ),
       ¬(req = "baseline") →
       ((faces = 0 →
          (classify_frame sess req opencv faces sig baseline sim motion now).1
            = "no_face") ∧
        (1 < faces →
          (classify_frame sess req opencv faces sig baseline sim motion now).1
            = "multi_face") ∧
        (faces = 1 → truthyList baseline = true → truthyList sig = true →
          ∀ v : ℝ, sim = some v → v < FACE_MISMATCH_THRESHOLD →
          (classify_frame sess req opencv faces sig baseline sim motion now).1
            = "face_mismatch") ∧
        (faces = 1 →
          ¬(truthyList baseline = true ∧ truthyList sig = true ∧
            ∃ v, sim = some v ∧ v < FACE_MISMATCH_THRESHOLD) →
          HIGH_MOTION_THRESHOLD < motion →
          (classify_frame sess req opencv faces sig baseline sim motion now).1
            = "high_motion") ∧
        (faces = 1 →
          ¬(truthyList baseline = true ∧ truthyList sig = true ∧
            ∃ v, sim = some v ∧ v < FACE_MISMATCH_THRESHOLD) →
          ¬(HIGH_MOTION_THRESHOLD < motion) →
          (classify_frame sess req opencv faces sig baseline sim motion now).1
            = "periodic"))) ∧
    (∀ (sess : PSession) (frame : FrameResult) (et : String) (pst : Int → ℚ)
       (now : ℚ) (sid : Int),
       frame.ok = true → ¬(pyLower (pyStrip et) = "baseline") →
       frame.faces_count = 0 →
       ∃ out ev, upload_proctor_frame sess frame et pst now sid = Except.ok out ∧
         out.event_type = "no_face" ∧ out.stored = true ∧
         out.event = some ev ∧ ev.image_path = some (proctorImagePath sid)) := by
  constructor
  · intro sess req opencv faces sig baseline sim motion now hreq
    refine ⟨?_, ?_, ?_, ?_, ?_⟩
    · intro hf
      rw [classify_no_face sess req opencv faces sig baseline sim motion now hreq hf]
    · intro hf
      rw [classify_multi_face sess req opencv faces sig baseline sim motion now hreq
            (by omega) hf]
    · intro hf hb hs v hv hlt
      rw [classify_face_mismatch sess req opencv faces sig baseline sim motion now hreq
            (by omega) (by omega) ⟨hb, hs, v, hv, hlt⟩]
    · intro hf hn hm
      rw [classify_high_motion sess req opencv faces sig baseline sim motion now hreq
            (by omega) (by omega) hn hm]
    · intro hf hn hm
      rw [classify_periodic sess req opencv faces sig baseline sim motion now hreq
            (by omega) (by omega) hn hm]
  · intro sess frame et pst now sid hok hreq hf
    have hc := classify_no_face sess (pyLower (pyStrip et)) frame.opencv_enabled
      frame.faces_count frame.face_signature sess.baseline_face_signature
      (route_similarity sess frame) frame.motion_score now hreq hf
    obtain ⟨out, hout, het, hsess, hm, hfc, hnp, hp, hst, hsf⟩ :=
      upload_frame_ok_fields sess frame et pst now sid _ hok hc
    have hstored : out.stored = true := by
      rw [(hnp (show ¬("no_face" : String) = "periodic" by decide)).2]
      exact (by decide :
        (SUSPICIOUS_TYPES.contains "no_face" || pyStartsWith "no_face" "baseline") = true)
    obtain ⟨ev, hev, hip, hevt⟩ := hst hstored
    exact ⟨out, ev, hout, het, hstored, hev, hip⟩

/-- Witness for C3: a scan frame with zero faces classifies `no_face` and
is stored with its snapshot; a scan frame with one face, baseline `[1]`,
current signature `[1]`, similarity 0 < 0.78 and motion 1 > 0.20 still
classifies `face_mismatch`. -/
theorem C3_witness :
    (classify_frame ⟨"in_progress", none, none⟩ "scan" true 0 none none none 0 0).1
      = "no_face" ∧
    (classify_frame ⟨"in_progress", none, none⟩ "scan" true 1 (some [1]) (some [1])
        (some 0) 1 0).1 = "face_mismatch" ∧
    (∃ out ev,
      upload_proctor_frame ⟨"in_progress", none, none⟩ ⟨true, 0, 0, none, none, true⟩
          "scan" (fun _ => 0) 100 1 = Except.ok out ∧
      out.event_type = "no_face" ∧ out.stored = true ∧
      out.event = some ev ∧ ev.image_path = some (proctorImagePath 1)) := by
  refine ⟨?_, ?_, ?_⟩
  · exact (C3_scan_classifier.1 ⟨"in_progress", none, none⟩ "scan" true 0 none none
      none 0 0 (by decide)).1 rfl
  · exact (C3_scan_classifier.1 ⟨"in_progress", none, none⟩ "scan" true 1 (some [1])
      (some [1]) (some 0) 1 0 (by decide)).2.2.1 rfl (by decide) (by decide) 0 rfl
      (by norm_num [FACE_MISMATCH_THRESHOLD])
  · exact C3_scan_classifier.2 ⟨"in_progress", none, none⟩ ⟨true, 0, 0, none, none, true⟩
      "scan" (fun _ => 0) 100 1 rfl (by decide) rfl

/-! ### C5 -/

/-- C5 counterexample: a scan frame submitted against a session whose
status is "completed" is not rejected — the endpoint processes it and
returns a success response (the source has no terminal-state check on
`upload_proctor_frame`). -/
theorem C5_counterexample :
    isOkE (upload_proctor_frame ⟨"completed", none, none⟩ analyze_frame_disabled
        "scan" (fun _ => 0) 100 1) = true := by
  have hc := classify_periodic ⟨"completed", none, none⟩ (pyLower (pyStrip "scan"))
      analyze_frame_disabled.opencv_enabled analyze_frame_disabled.faces_count
      analyze_frame_disabled.face_signature
      (PSession.baseline_face_signature ⟨"completed", none, none⟩)
      (route_similarity ⟨"completed", none, none⟩ analyze_frame_disabled)
      analyze_frame_disabled.motion_score 100
      (by decide) (by decide) (by decide)
      (fun hcon => absurd hcon.1 (by simp [truthyList]))
      (by norm_num [HIGH_MOTION_THRESHOLD, analyze_frame_disabled])
  obtain ⟨out, hout, _⟩ := upload_frame_ok_fields ⟨"completed", none, none⟩
    analyze_frame_disabled "scan" (fun _ => 0) 100 1 _ rfl hc
  rw [hout]
  rfl

/-- C5 amended: an answer submission against a completed session is
rejected with the terminal-state error (and, the error aborting the
request, the session state is unchanged); a frame submission however is
not status-checked — whenever the frame decodes, the endpoint succeeds
regardless of the session status. -/
theorem C5_terminal_state_amended :
    (∀ (scorer : String → String → String × ℚ) (sess : ASession)
       (questions : List AQuestion) (result : Option ResultCtx) (newQid : Int)
       (payload : AnswerBody),
       sess.status = "completed" →
       interview_answer scorer sess questions result newQid payload =
         Except.error (400, "Interview session already completed")) ∧
    (∀ (sess : PSession) (frame : FrameResult) (et : String) (pst : Int → ℚ)
       (now : ℚ) (sid : Int),
       frame.ok = true →
       ∃ out, upload_proctor_frame sess frame et pst now sid = Except.ok out) := by
  constructor
  · intro scorer sess questions result newQid payload h
    unfold interview_answer
    rw [if_pos h]
  · intro sess frame et pst now sid h
    obtain ⟨out, hout, _⟩ :=
      upload_frame_ok_fields sess frame et pst now sid _ h rfl
    exact ⟨out, hout⟩

/-- Witness for the amended C5 at concrete completed-session inputs. -/
theorem C5_witness :
    interview_answer (fun _ _ => ("", 0))
        ⟨"completed", some 60, some 1200, some 900, some 8⟩
        [] none 0 ⟨1, "hi", false, 10⟩ =
      Except.error (400, "Interview session already completed") ∧
    isOkE (upload_proctor_frame ⟨"completed", none, none⟩ analyze_frame_disabled
        "baseline" (fun _ => 0) 50 2) = true := by
  constructor
  · exact C5_terminal_state_amended.1 _ _ _ _ _ _ rfl
  · obtain ⟨out, hout⟩ := C5_terminal_state_amended.2 ⟨"completed", none, none⟩
      analyze_frame_disabled "baseline" (fun _ => 0) 50 2 rfl
    rw [hout]
    rfl

/-! ### C10 -/

/-- C10: when face detection is unavailable, `analyze_frame` reports
exactly one face, zero motion and no signature; a baseline-intent request
in this mode is acknowledged with event type "baseline" while the session's
`baseline_face_signature` is left unchanged; and no frame processed in this
mode can ever produce a `face_mismatch` event. -/
theorem C10_degraded_mode :
    (analyze_frame_disabled.faces_count = 1 ∧
     analyze_frame_disabled.motion_score = 0 ∧
     analyze_frame_disabled.face_signature = none) ∧
    (∀ (sess : PSession) (pst : Int → ℚ) (now : ℚ) (sid : Int),
       ∃ out, upload_proctor_frame sess analyze_frame_disabled "baseline" pst now sid =
           Except.ok out ∧
         out.event_type = "baseline" ∧
         out.session.baseline_face_signature = sess.baseline_face_signature) ∧
    (∀ (sess : PSession) (et : String) (pst : Int → ℚ) (now : ℚ) (sid : Int)
       (out : ProctorOutcome),
       upload_proctor_frame sess analyze_frame_disabled et pst now sid = Except.ok out →
       ¬(out.event_type = "face_mismatch")) := by
  refine ⟨⟨rfl, rfl, rfl⟩, ?_, ?_⟩
  · intro sess pst now sid
    have hc := classify_baseline_disabled sess (pyLower (pyStrip "baseline"))
      analyze_frame_disabled.opencv_enabled analyze_frame_disabled.faces_count
      analyze_frame_disabled.face_signature sess.baseline_face_signature
      (route_similarity sess analyze_frame_disabled)
      analyze_frame_disabled.motion_score now (by decide) rfl
    obtain ⟨out, hout, het, hsess, _⟩ :=
      upload_frame_ok_fields sess analyze_frame_disabled "baseline" pst now sid _ rfl hc
    exact ⟨out, hout, het, by rw [hsess]⟩
  · intro sess et pst now sid out hout
    by_cases hreq : pyLower (pyStrip et) = "baseline"
    · have hc := classify_baseline_disabled sess (pyLower (pyStrip et))
        analyze_frame_disabled.opencv_enabled analyze_frame_disabled.faces_count
        analyze_frame_disabled.face_signature sess.baseline_face_signature
        (route_similarity sess analyze_frame_disabled)
        analyze_frame_disabled.motion_score now hreq rfl
      obtain ⟨out₂, hout₂, het₂, _⟩ :=
        upload_frame_ok_fields sess analyze_frame_disabled et pst now sid _ rfl hc
      rw [hout] at hout₂
      injection hout₂ with h₂
      rw [← h₂] at het₂
      rw [het₂]
      exact (by decide : ¬("baseline" : String) = "face_mismatch")
    · have hc := classify_periodic sess (pyLower (pyStrip et))
        analyze_frame_disabled.opencv_enabled analyze_frame_disabled.faces_count
        analyze_frame_disabled.face_signature sess.baseline_face_signature
        (route_similarity sess analyze_frame_disabled)
        analyze_frame_disabled.motion_score now hreq (by decide) (by decide)
        (fun hcon => by
          have := hcon.2.1
          simp [truthyList, analyze_frame_disabled] at this)
        (by norm_num [HIGH_MOTION_THRESHOLD, analyze_frame_disabled])
      obtain ⟨out₂, hout₂, het₂, _⟩ :=
        upload_frame_ok_fields sess analyze_frame_disabled et pst now sid _ rfl hc
      rw [hout] at hout₂
      injection hout₂ with h₂
      rw [← h₂] at het₂
      rw [het₂]
      exact (by decide : ¬("periodic" : String) = "face_mismatch")

/-- Witness for C10 at a concrete session with no stored baseline. -/
theorem C10_witness :
    (upload_proctor_frame ⟨"in_progress", none, none⟩ analyze_frame_disabled
        "baseline" (fun _ => 0) 100 1).toOption.map ProctorOutcome.event_type =
      some "baseline" ∧
    (upload_proctor_frame ⟨"in_progress", none, none⟩ analyze_frame_disabled
        "baseline" (fun _ => 0) 100 1).toOption.map
        (fun o => o.session.baseline_face_signature) = some none ∧
    ¬((upload_proctor_frame ⟨"in_progress", none, none⟩ analyze_frame_disabled
        "scan" (fun _ => 0) 100 1).toOption.map ProctorOutcome.event_type =
      some "face_mismatch") := by
  obtain ⟨out, hout, het, hbase⟩ := C10_degraded_mode.2.1
    ⟨"in_progress", none, none⟩ (fun _ => 0) 100 1
  refine ⟨?_, ?_, ?_⟩
  · rw [hout]
    simp [Except.toOption, het]
  · rw [hout]
    simp [Except.toOption]
    simpa using hbase
  · have hc := classify_periodic ⟨"in_progress", none, none⟩ (pyLower (pyStrip "scan"))
      analyze_frame_disabled.opencv_enabled analyze_frame_disabled.faces_count
      analyze_frame_disabled.face_signature
      (PSession.baseline_face_signature ⟨"in_progress", none, none⟩)
      (route_similarity ⟨"in_progress", none, none⟩ analyze_frame_disabled)
      analyze_frame_disabled.motion_score 100
      (by decide) (by decide) (by decide)
      (fun hcon => absurd hcon.1 (by simp [truthyList]))
      (by norm_num [HIGH_MOTION_THRESHOLD, analyze_frame_disabled])
    obtain ⟨out₂, hout₂, _⟩ := upload_frame_ok_fields ⟨"in_progress", none, none⟩
      analyze_frame_disabled "scan" (fun _ => 0) 100 1 _ rfl hc
    have := C10_degraded_mode.2.2 ⟨"in_progress", none, none⟩ "scan" (fun _ => 0)
      100 1 out₂ hout₂
    rw [hout₂]
    simpa [Except.toOption] using this

end InterviewBot

namespace InterviewBot

/-! ### C4 -/

/-- C4: a periodic event is persisted exactly when at least the interval
has elapsed since the per-session last-saved timestamp, which is updated
only on persistence; from a fresh state, submissions at `t`, `t+2` and
`t+11` store the first, skip the second and store the third; and a
periodic frame inside the interval is acknowledged with `stored = false`,
no event row, and an unchanged throttle state. -/
theorem C4_periodic_throttle :
    (∀ (st : Int → ℚ) (sid iv : Int) (now : ℚ),
       ((should_store_periodic st sid iv now).1 = true ↔ (iv : ℚ) ≤ now - st sid) ∧
       ((should_store_periodic st sid iv now).1 = true →
         (should_store_periodic st sid iv now).2 sid = now) ∧
       ((should_store_periodic st sid iv now).1 = false →
         (should_store_periodic st sid iv now).2 = st)) ∧
    (∀ (t : ℚ) (sid : Int), 10 ≤ t →
       (should_store_periodic (fun _ => 0) sid PERIODIC_SAVE_SECONDS t).1 = true ∧
       (should_store_periodic
         (should_store_periodic (fun _ => 0) sid PERIODIC_SAVE_SECONDS t).2
         sid PERIODIC_SAVE_SECONDS (t + 2)).1 = false ∧
       (should_store_periodic
         (should_store_periodic
           (should_store_periodic (fun _ => 0) sid PERIODIC_SAVE_SECONDS t).2
           sid PERIODIC_SAVE_SECONDS (t + 2)).2
         sid PERIODIC_SAVE_SECONDS (t + 11)).1 = true) ∧
    (∀ (sess : PSession) (frame : FrameResult) (et : String) (pst : Int → ℚ)
       (now : ℚ) (sid : Int),
       frame.ok = true →
       (classify_frame sess (pyLower (pyStrip et)) frame.opencv_enabled
          frame.faces_count frame.face_signature sess.baseline_face_signature
          (route_similarity sess frame) frame.motion_score now).1 = "periodic" →
       now - pst sid < (PERIODIC_SAVE_SECONDS : ℚ) →
       ∃ out, upload_proctor_frame sess frame et pst now sid = Except.ok out ∧
         out.stored = false ∧ out.event = none ∧ out.pstate = pst ∧
         out.event_type = "periodic") := by
  refine ⟨?_, ?_, ?_⟩
  · intro st sid iv now
    by_cases h : (iv : ℚ) ≤ now - st sid
    · refine ⟨by simp [should_store_periodic, h], ?_, ?_⟩
      · intro _
        simp [should_store_periodic, h]
      · intro habs
        simp [should_store_periodic, h] at habs
    · refine ⟨by simp [should_store_periodic, h], ?_, fun _ => ?_⟩
      · intro habs
        simp [should_store_periodic, h] at habs
      · simp [should_store_periodic, h]
  · intro t sid ht
    have h10 : ((PERIODIC_SAVE_SECONDS : Int) : ℚ) = 10 := by
      norm_num [PERIODIC_SAVE_SECONDS]
    have hs1 : should_store_periodic (fun _ => 0) sid PERIODIC_SAVE_SECONDS t =
        (true, fun s => if s = sid then t else (fun _ => (0 : ℚ)) s) := by
      unfold should_store_periodic
      rw [if_pos (by rw [h10]; simpa using ht)]
    rw [hs1]
    have hlook : (fun s => if s = sid then t else (fun _ => (0 : ℚ)) s) sid = t := by
      simp
    have hs2 : should_store_periodic
        (fun s => if s = sid then t else (fun _ => (0 : ℚ)) s)
        sid PERIODIC_SAVE_SECONDS (t + 2) =
        (false, fun s => if s = sid then t else (fun _ => (0 : ℚ)) s) := by
      unfold should_store_periodic
      rw [if_neg (by rw [h10, hlook]; linarith)]
    have hs3 : should_store_periodic
        (fun s => if s = sid then t else (fun _ => (0 : ℚ)) s)
        sid PERIODIC_SAVE_SECONDS (t + 11) =
        (true, fun s => if s = sid then t + 11
                        else (fun s => if s = sid then t else (fun _ => (0 : ℚ)) s) s) := by
      unfold should_store_periodic
      rw [if_pos (by rw [h10, hlook]; linarith)]
    refine ⟨rfl, ?_, ?_⟩
    · rw [show ((true, fun s => if s = sid then t else (fun _ => (0 : ℚ)) s) :
          Bool × (Int → ℚ)).2 = fun s => if s = sid then t else (fun _ => (0 : ℚ)) s
          from rfl, hs2]
    · rw [show ((true, fun s => if s = sid then t else (fun _ => (0 : ℚ)) s) :
          Bool × (Int → ℚ)).2 = fun s => if s = sid then t else (fun _ => (0 : ℚ)) s
          from rfl, hs2,
          show ((false, fun s => if s = sid then t else (fun _ => (0 : ℚ)) s) :
          Bool × (Int → ℚ)).2 = fun s => if s = sid then t else (fun _ => (0 : ℚ)) s
          from rfl, hs3]
  · intro sess frame et pst now sid hok hclass hin
    obtain ⟨out, hout, het, hsess, hm, hfc, hnp, hp, hst, hsf⟩ :=
      upload_frame_ok_fields sess frame et pst now sid _ hok rfl
    have hssp : should_store_periodic pst sid PERIODIC_SAVE_SECONDS now = (false, pst) := by
      unfold should_store_periodic
      rw [if_neg (by intro hcon; exact absurd hcon (not_le.mpr hin))]
    obtain ⟨hstored, hpst⟩ := hp hclass
    rw [hssp] at hstored hpst
    exact ⟨out, hout, hstored, hsf hstored, hpst, het.trans hclass⟩

/-- Witness for C4: the general interval law at a concrete state; the
t / t+2 / t+11 scenario at t = 100; and a concrete in-interval periodic
frame acknowledged without storage. -/
theorem C4_witness :
    ((should_store_periodic (fun _ => 0) 1 10 100).1 = true ↔
      (10 : ℚ) ≤ 100 - (fun _ => (0 : ℚ)) 1) ∧
    ((should_store_periodic (fun _ => 0) 1 PERIODIC_SAVE_SECONDS 100).1 = true ∧
     (should_store_periodic
       (should_store_periodic (fun _ => 0) 1 PERIODIC_SAVE_SECONDS 100).2
       1 PERIODIC_SAVE_SECONDS (100 + 2)).1 = false ∧
     (should_store_periodic
       (should_store_periodic
         (should_store_periodic (fun _ => 0) 1 PERIODIC_SAVE_SECONDS 100).2
         1 PERIODIC_SAVE_SECONDS (100 + 2)).2
       1 PERIODIC_SAVE_SECONDS (100 + 11)).1 = true) ∧
    ((upload_proctor_frame ⟨"in_progress", none, none⟩ ⟨true, 1, 0, none, none, true⟩
        "scan" (fun _ => 95) 100 1).toOption.map ProctorOutcome.stored = some false ∧
     (upload_proctor_frame ⟨"in_progress", none, none⟩ ⟨true, 1, 0, none, none, true⟩
        "scan" (fun _ => 95) 100 1).toOption.map ProctorOutcome.event_type =
       some "periodic") := by
  refine ⟨(C4_periodic_throttle.1 (fun _ => 0) 1 10 100).1,
    C4_periodic_throttle.2.1 100 1 (by norm_num), ?_⟩
  have hc := classify_periodic ⟨"in_progress", none, none⟩ (pyLower (pyStrip "scan"))
      (FrameResult.opencv_enabled ⟨true, 1, 0, none, none, true⟩)
      (FrameResult.faces_count ⟨true, 1, 0, none, none, true⟩)
      (FrameResult.face_signature ⟨true, 1, 0, none, none, true⟩)
      (PSession.baseline_face_signature ⟨"in_progress", none, none⟩)
      (route_similarity ⟨"in_progress", none, none⟩ ⟨true, 1, 0, none, none, true⟩)
      (FrameResult.motion_score ⟨true, 1, 0, none, none, true⟩) 100
      (by decide) (by decide) (by decide)
      (fun hcon => absurd hcon.1 (by simp [truthyList]))
      (by norm_num [HIGH_MOTION_THRESHOLD])
  obtain ⟨out, hout, hstored, hev, hpst, het⟩ := C4_periodic_throttle.2.2
    ⟨"in_progress", none, none⟩ ⟨true, 1, 0, none, none, true⟩ "scan"
    (fun _ => 95) 100 1 rfl (by rw [hc]) (by norm_num [PERIODIC_SAVE_SECONDS])
  rw [hout]
  constructor
  · simp [Except.toOption, hstored]
  · simp [Except.toOption, het]

end InterviewBot

namespace InterviewBot

/-! ### C1 -/

theorem create_next_question_unanswered (sess : ASession)
    (questions : List AQuestion) (ctx : ResultCtx) (last_answer : String)
    (newQid : Int) (nq : AQuestion)
    (h : create_next_question sess questions ctx last_answer newQid = some nq) :
    nq.time_taken_seconds = none := by
  simp only [create_next_question] at h
  split at h
  · exact absurd h (by simp)
  · split at h
    · exact absurd h (by simp)
    · injection h with h'
      rw [← h']

theorem countAnswered_append_unanswered (l : List AQuestion) (nq : AQuestion)
    (h : nq.time_taken_seconds = none) :
    countAnswered (l ++ [nq]) = countAnswered l := by
  unfold countAnswered
  rw [List.filter_append]
  simp [h]

/-- C1: an accepted answer decreases `remaining_time_seconds` by the
reported time taken clamped to `[0, allotted seconds]` (with the source's
per-question / 60-second fallbacks), never below 0 — so the remaining time
never increases — and as soon as the remaining time reaches 0 or the count
of answered questions reaches `max_questions`, the session status becomes
"completed". The hypotheses `remaining = some r`, `0 < r` characterize an
in-progress session (sessions start with `total_time_seconds ≥ 300` and
complete in the same request in which the remaining time reaches 0). -/
theorem C1_remaining_time_invariant :
    ∀ (scorer : String → String → String × ℚ) (sess : ASession)
      (questions : List AQuestion) (result : Option ResultCtx) (newQid : Int)
      (payload : AnswerBody) (resp : AnswerResponse) (sess' : ASession)
      (questions' : List AQuestion) (r : Int) (q : AQuestion),
      sess.remaining_time_seconds = some r →
      0 < r →
      questions.find? (fun x => x.qid = payload.question_id) = some q →
      interview_answer scorer sess questions result newQid payload =
        Except.ok (resp, sess', questions') →
      (sess'.remaining_time_seconds =
         some (max 0 (r - max 0 (min payload.time_taken_sec
           (orElseTruthy q.allotted_seconds
             (orElseTruthy sess.per_question_seconds 60))))) ∧
       max 0 (r - max 0 (min payload.time_taken_sec
         (orElseTruthy q.allotted_seconds
           (orElseTruthy sess.per_question_seconds 60)))) ≤ r ∧
       ((sess'.remaining_time_seconds = some 0 ∨
         (countAnswered questions' : Int) ≥ orElseTruthy sess.max_questions 8) →
        sess'.status = "completed")) := by
  intro scorer sess questions result newQid payload resp sess' questions' r q
    hr hrpos hfind hok
  have hcur : orElseTruthy sess.remaining_time_seconds
      (orElseTruthy sess.total_time_seconds 1200) = r := by
    rw [hr]
    have hne : ¬(r = 0) := by omega
    simp [orElseTruthy, hne]
  have hmono : max 0 (r - max 0 (min payload.time_taken_sec
      (orElseTruthy q.allotted_seconds
        (orElseTruthy sess.per_question_seconds 60)))) ≤ r := by
    have hc0 : (0 : Int) ≤ max 0 (min payload.time_taken_sec
        (orElseTruthy q.allotted_seconds
          (orElseTruthy sess.per_question_seconds 60))) := le_max_left _ _
    exact max_le (le_of_lt hrpos) (sub_le_self r hc0)
  simp only [interview_answer] at hok
  split at hok
  · exact absurd hok (by simp)
  · split at hok
    · rename_i heq
      rw [hfind] at heq
      exact absurd heq (by simp)
    · rename_i x heq
      rw [hfind] at heq
      injection heq with heqv
      subst heqv
      split at hok
      · exact absurd hok (by simp)
      · split at hok
        · exact absurd hok (by simp)
        · rw [hcur] at hok
          split at hok
          all_goals (
                split at hok
                · simp only [Except.ok.injEq, Prod.mk.injEq] at hok
                  obtain ⟨hresp, hsess, hqs⟩ := hok
                  refine ⟨?_, hmono, fun _ => ?_⟩
                  · rw [← hsess]
                  · rw [← hsess]
                · rename_i hcond
                  split at hok
                  · simp only [Except.ok.injEq, Prod.mk.injEq] at hok
                    obtain ⟨hresp, hsess, hqs⟩ := hok
                    refine ⟨?_, hmono, fun _ => ?_⟩
                    · rw [← hsess]
                    · rw [← hsess]
                  · rename_i nq heq3
                    simp only [Except.ok.injEq, Prod.mk.injEq] at hok
                    obtain ⟨hresp, hsess, hqs⟩ := hok
                    refine ⟨?_, hmono, ?_⟩
                    · rw [← hsess]
                    · intro hdone
                      rcases hdone with hzero | hmax
                      · refine absurd (Or.inl ?_) hcond
                        rw [← hsess] at hzero
                        have h0 : some (max 0 (r - max 0 (min payload.time_taken_sec
                            (orElseTruthy q.allotted_seconds
                              (orElseTruthy sess.per_question_seconds 60))))) =
                            some (0 : Int) := hzero
                        injection h0 with h0v
                        exact le_of_eq h0v
                      · refine absurd (Or.inr ?_) hcond
                        rw [← hqs, countAnswered_append_unanswered _ _
                          (create_next_question_unanswered _ _ _ _ _ _ heq3)] at hmax
                        exact hmax
          )

/-- Witness for C1: answering the single question of a `max_questions = 1`
session with 30 reported seconds leaves 1170 of 1200 seconds and completes
the session. -/
theorem C1_witness :
    (⟨"completed", some 60, some 1200, some 1170, some 1⟩ : ASession).remaining_time_seconds
        = some 1170 ∧
    max 0 ((1200 : Int) - max 0 (min 30 (orElseTruthy (some 60)
        (orElseTruthy (some 60) 60)))) ≤ 1200 ∧
    (⟨"completed", some 60, some 1200, some 1170, some 1⟩ : ASession).status
        = "completed" := by
  have h := C1_remaining_time_invariant (fun _ _ => ("", 0))
      ⟨"in_progress", some 60, some 1200, some 1200, some 1⟩
      [⟨1, "Q1", "easy", "general", some 60, none, none, none, none, false⟩]
      (some ⟨[], none⟩) 2 ⟨1, "an answer", false, 30⟩
      ⟨true, 1170, none, 1, 1, 0⟩
      ⟨"completed", some 60, some 1200, some 1170, some 1⟩
      [⟨1, "Q1", "easy", "general", some 60, some "an answer", some "", some 0,
        some 30, false⟩]
      1200 ⟨1, "Q1", "easy", "general", some 60, none, none, none, none, false⟩
      rfl (by norm_num) (by decide) (by rfl)
  refine ⟨?_, h.2.1, h.2.2 (Or.inr (by decide))⟩
  rw [h.1]
  decide

end InterviewBot
